import Mathlib

/-!
Shallow embedding of the Heatzy Home Assistant integration core
(`custom_components/heatzy/__init__.py` and
`custom_components/heatzy/climate.py`).

Modelling conventions: time is rational seconds; Python dictionaries are
association lists or `String → Option _` maps; Python exceptions are the
error side of `Except`; Python `None` is `Option.none`.
-/

/-- Normalized preset enumeration: the Home Assistant constants
`PRESET_COMFORT`, `PRESET_ECO`, `PRESET_AWAY`, `PRESET_NONE` imported by both
source files. -/
inductive Preset
  | comfort
  | eco
  | away
  | preset_none
deriving DecidableEq

/-- HVAC modes used by the integration: `HVACMode.AUTO`, `HVACMode.HEAT`,
`HVACMode.OFF`. -/
inductive HVACMode
  | auto
  | heat
  | off
deriving DecidableEq

/-- Python values that appear as device attribute values or wire values in
this integration: mode strings, raw command int lists, plain ints. -/
inductive WireVal
  | str : String → WireVal
  | raw : List Int → WireVal
  | int : Int → WireVal
deriving DecidableEq

/-- The constant `min_diff = timedelta(seconds=1.5)` of `__init__.py`
line 53, in seconds. -/
def min_diff : ℚ := 3 / 2

/-- The coordinator's `_last_updated_time` dict: device id to the timestamp
(seconds) recorded after the last successful command. -/
abbrev TimeMap := List (String × ℚ)

/-- Python dict lookup (`dict.get`): the most recent binding wins. -/
def lookupTime : TimeMap → String → Option ℚ
  | [], _ => none
  | (k, v) :: rest, d => if k = d then some v else lookupTime rest d

/-- Python dict assignment `self._last_updated_time[device_id] = t`,
modelled by a shadowing cons. -/
def setTime (m : TimeMap) (d : String) (t : ℚ) : TimeMap :=
  (d, t) :: m

/-- Sleep performed by `async_control_device` (`__init__.py` lines 84-90):
when the last recorded command time for this device is less than `min_diff`
ago, sleep the remaining delta; otherwise do not sleep. -/
def sleepSeconds (last : Option ℚ) (now : ℚ) : ℚ :=
  match last with
  | none => 0
  | some l => if now - l < min_diff then min_diff - (now - l) else 0

/-- Result of one `async_control_device` call: the `_last_updated_time` map
after the call, the time at which the payload was dispatched to the API
transport, and the value returned to the caller (`none` on the swallowed
exception path, which returns Python `None`). -/
structure ControlResult (A : Type) where
  newTimes : TimeMap
  dispatchTime : ℚ
  returned : Option A

/-- Body of `async_control_device` (`__init__.py` lines 83-95) before the
`except` handler: read the last recorded time, sleep the remainder of
`min_diff` if needed, dispatch to the API transport (outcome `api`,
completing at clock time `tc`), then write `tc` into the map. An API
failure propagates out of the body as an exception, so the map write on
line 93 is not reached. -/
def control_body (A : Type) (m : TimeMap) (dev : String) (now : ℚ)
    (api : Except String A) (tc : ℚ) : Except String (ControlResult A) :=
  let dispatch := now + sleepSeconds (lookupTime m dev) now
  match api with
  | Except.ok a => Except.ok ⟨setTime m dev tc, dispatch, some a⟩
  | Except.error e => Except.error e

/-- The function `async_control_device` (`__init__.py` lines 80-97): the
body wrapped in `try ... except Exception`, which logs and swallows any
failure; on failure the map update line was never reached, so the map is
returned unchanged and the call returns `None`. -/
def async_control_device (A : Type) (m : TimeMap) (dev : String) (now : ℚ)
    (api : Except String A) (tc : ℚ) : ControlResult A :=
  match control_body A m dev now api tc with
  | Except.ok r => r
  | Except.error _ => ⟨m, now + sleepSeconds (lookupTime m dev) now, none⟩

/-- The constant `_BITS_PER_STATE = 2` (`__init__.py` line 25). -/
def _BITS_PER_STATE : Nat := 2

/-- The dict `_BITS_TO_PRESET` (`__init__.py` lines 27-32) used with Python
`[]` indexing: defined codes are 0..3; any other index raises `KeyError`,
modelled by `none`. -/
def _BITS_TO_PRESET : Int → Option Preset
  | 0 => some Preset.comfort
  | 1 => some Preset.eco
  | 2 => some Preset.away
  | 3 => some Preset.preset_none
  | _ => none

/-- Python `<<` on unbounded ints is multiplication by a power of two. -/
def pyShiftLeft (v : Int) (k : Nat) : Int :=
  v * 2 ^ k

/-- Rendering of the Python f-string fragment `f"{date.hour/2}"` for an
hour in 0..23: `/` is float true division, so the repr is `k.0` when the
hour is even and `k.5` when it is odd. -/
def hourHalfStr (hour : Nat) : String :=
  toString (hour / 2) ++ (if hour % 2 = 0 then ".0" else ".5")

/-- The key built on `__init__.py` line 103:
`f"p{date.isoweekday()}_data{date.hour/2}"`. -/
def scheduleKey (isoweekday hour : Nat) : String :=
  "p" ++ toString isoweekday ++ "_data" ++ hourHalfStr hour

/-- The expression `block_nb` on `__init__.py` line 109:
`((date.hour % 2) >> 1) + int(date.minute < 30)`. -/
def block_nb (hour minute : Nat) : Nat :=
  ((hour % 2) >>> 1) + (if minute < 30 then 1 else 0)

/-- The index computed on `__init__.py` line 110. Python operator
precedence makes `x % 2*_BITS_PER_STATE` parse as `(x % 2) * _BITS_PER_STATE`,
and Python `%` on ints is `Int.emod`. -/
def presetIndex (state_value : Int) (hour minute : Nat) : Int :=
  pyShiftLeft state_value (_BITS_PER_STATE * block_nb hour minute) % 2 * (_BITS_PER_STATE : Int)

/-- The method `get_programmed_preset_at_date` (`__init__.py` lines
102-110). `attrs` is the device's attribute mapping with
`.get(CONF_ATTR, {})` already applied, holding the schedule ints. The
early `return None` fires when the key is absent; otherwise the
`_BITS_TO_PRESET[...]` dict indexing happens, whose potential `KeyError` is
modelled as `Except.error`. -/
def get_programmed_preset_at_date (attrs : String → Option Int)
    (isoweekday hour minute : Nat) : Except String (Option Preset) :=
  match attrs (scheduleKey isoweekday hour) with
  | none => Except.ok none
  | some state_value =>
    match _BITS_TO_PRESET (presetIndex state_value hour minute) with
    | some p => Except.ok (some p)
    | none => Except.error "KeyError"

/-- Exceptions the API fetch can raise: `AuthenticationFailed` and
`HeatzyException` from `heatzypy.exception`, plus `asyncio.TimeoutError`
from the `async_timeout.timeout(API_TIMEOUT)` guard. -/
inductive FetchError
  | authenticationFailed
  | heatzyException : String → FetchError
  | timeoutError
deriving DecidableEq

/-- Exceptions `_async_update_data` raises to the coordinator framework:
`ConfigEntryAuthFailed` (the re-authentication signal) and `UpdateFailed`
(the generic transient signal, wrapping its cause). -/
inductive CoordinatorError
  | configEntryAuthFailed
  | updateFailed : FetchError → CoordinatorError
deriving DecidableEq

/-- The method `_async_update_data` (`__init__.py` lines 112-121): return
the fetched snapshot unchanged on success; map `AuthenticationFailed` to
`ConfigEntryAuthFailed` and `HeatzyException` or `asyncio.TimeoutError` to
`UpdateFailed`. -/
def _async_update_data (D : Type) (fetch : Except FetchError D) :
    Except CoordinatorError D :=
  match fetch with
  | Except.ok d => Except.ok d
  | Except.error FetchError.authenticationFailed =>
      Except.error CoordinatorError.configEntryAuthFailed
  | Except.error (FetchError.heatzyException msg) =>
      Except.error (CoordinatorError.updateFailed (FetchError.heatzyException msg))
  | Except.error FetchError.timeoutError =>
      Except.error (CoordinatorError.updateFailed FetchError.timeoutError)

/-- Modelled from the spec: `const.py` is not under `src/`; the spec only
says `CONF_MODE` names the mode attribute read by `preset_mode`. The exact
key strings of this and the following constants are immaterial to the
claims; the keys only need to be distinct. -/
def CONF_MODE : String := "mode"

/-- Modelled from the spec: the timer attribute key `CONF_TIMER` read by
`auto_mode`. -/
def CONF_TIMER : String := "timer"

/-- Modelled from the spec: the on/off attribute key `CONF_ON_OFF` read by
the Glow `hvac_mode` override. -/
def CONF_ON_OFF : String := "on_off"

/-- Modelled from the spec: the current-temperature high byte key
`CUR_TEMP_H`. -/
def CUR_TEMP_H : String := "cur_tempH"

/-- Modelled from the spec: the current-temperature low byte key
`CUR_TEMP_L`. -/
def CUR_TEMP_L : String := "cur_tempL"

/-- Modelled from the spec: the comfort setpoint high byte key
`CFT_TEMP_H`. -/
def CFT_TEMP_H : String := "cft_tempH"

/-- Modelled from the spec: the comfort setpoint low byte key
`CFT_TEMP_L`. -/
def CFT_TEMP_L : String := "cft_tempL"

/-- Modelled from the spec: the eco setpoint high byte key `ECO_TEMP_H`. -/
def ECO_TEMP_H : String := "eco_tempH"

/-- Modelled from the spec: the eco setpoint low byte key `ECO_TEMP_L`. -/
def ECO_TEMP_L : String := "eco_tempL"

/-- The dict `HeatzyPiloteV1Thermostat.HEATZY_TO_HA_STATE` (`climate.py`
lines 128-133), applied with `.get`: unknown values map to `None`. -/
def V1_HEATZY_TO_HA_STATE (w : WireVal) : Option Preset :=
  if w = WireVal.str "舒适" then some Preset.comfort
  else if w = WireVal.str "经济" then some Preset.eco
  else if w = WireVal.str "解冻" then some Preset.away
  else if w = WireVal.str "停止" then some Preset.preset_none
  else none

/-- The dict `HeatzyPiloteV1Thermostat.HA_TO_HEATZY_STATE` (`climate.py`
lines 134-139), total over the preset enumeration. -/
def V1_HA_TO_HEATZY_STATE : Preset → WireVal
  | Preset.comfort => WireVal.raw [1, 1, 0]
  | Preset.eco => WireVal.raw [1, 1, 1]
  | Preset.away => WireVal.raw [1, 1, 2]
  | Preset.preset_none => WireVal.raw [1, 1, 3]

/-- The dict `HeatzyPiloteV2Thermostat.HEATZY_TO_HA_STATE` (`climate.py`
lines 174-179), applied with `.get`: unknown values map to `None`. -/
def V2_HEATZY_TO_HA_STATE (w : WireVal) : Option Preset :=
  if w = WireVal.str "cft" then some Preset.comfort
  else if w = WireVal.str "eco" then some Preset.eco
  else if w = WireVal.str "fro" then some Preset.away
  else if w = WireVal.str "stop" then some Preset.preset_none
  else none

/-- The dict `HeatzyPiloteV2Thermostat.HA_TO_HEATZY_STATE` (`climate.py`
lines 181-186), total over the preset enumeration. -/
def V2_HA_TO_HEATZY_STATE : Preset → WireVal
  | Preset.comfort => WireVal.str "cft"
  | Preset.eco => WireVal.str "eco"
  | Preset.away => WireVal.str "fro"
  | Preset.preset_none => WireVal.str "stop"

/-- Glow decode table: `Glowv1Thermostat` extends `HeatzyPiloteV2Thermostat`
and overrides neither state dict, so it inherits V2's tables unchanged. -/
def Glow_HEATZY_TO_HA_STATE : WireVal → Option Preset :=
  V2_HEATZY_TO_HA_STATE

/-- Glow encode table, inherited unchanged from V2. -/
def Glow_HA_TO_HEATZY_STATE : Preset → WireVal :=
  V2_HA_TO_HEATZY_STATE

/-- The property `HeatzyPiloteV2Thermostat.preset_mode` (`climate.py` lines
261-266): decode `attrs.get(CONF_MODE)` through the state dict; a missing
attribute gives the Python `None` key, which the dict `.get` maps to
`None`. -/
def v2_preset_mode (attrs : String → Option WireVal) : Option Preset :=
  match attrs CONF_MODE with
  | some w => V2_HEATZY_TO_HA_STATE w
  | none => none

/-- The property `HeatzyPiloteV2Thermostat.auto_mode` (`climate.py` lines
231-233): `attrs.get(CONF_TIMER) == 1`. -/
def v2_auto_mode (attrs : String → Option WireVal) : Bool :=
  match attrs CONF_TIMER with
  | some (WireVal.int 1) => true
  | _ => false

/-- The property `HeatzyPiloteV2Thermostat.hvac_mode` (`climate.py` lines
221-229): Auto when `auto_mode`, else Off when the preset is `stop`, else
Heat. -/
def v2_hvac_mode (attrs : String → Option WireVal) : HVACMode :=
  if v2_auto_mode attrs then HVACMode.auto
  else if v2_preset_mode attrs = some Preset.preset_none then HVACMode.off
  else HVACMode.heat

/-- The property `Glowv1Thermostat.hvac_mode` (`climate.py` lines 368-376):
only `CONF_ON_OFF` is consulted; the V2 `auto_mode` logic is overridden
away. -/
def glow_hvac_mode (attrs : String → Option WireVal) : HVACMode :=
  if attrs CONF_ON_OFF = some (WireVal.int 0) then HVACMode.off
  else HVACMode.heat

/-- The flag computed in `HeatzyPiloteV2Thermostat.extra_state_attributes`
(`climate.py` lines 196-204):
`(last_update - datetime.now()) < timedelta(seconds=5)` when a timestamp
was recorded for the device, else `False`. Note the operand order of the
subtraction, taken verbatim from the source. -/
def recent_update_by_homeassistant (last : Option ℚ) (now : ℚ) : Bool :=
  match last with
  | none => false
  | some l => decide (l - now < 5)

/-- The property `Glowv1Thermostat.current_temperature` (`climate.py` lines
283-292): both bytes are read with `.get` and no default, then combined
with `(cur_tempL + (cur_tempH * 255)) / 10`; if either byte is absent the
arithmetic is applied to Python `None` and raises `TypeError`. -/
def current_temperature (attrs : String → Option Int) : Except String ℚ :=
  match attrs CUR_TEMP_L, attrs CUR_TEMP_H with
  | some l, some h => Except.ok (((l + h * 255 : Int) : ℚ) / 10)
  | _, _ => Except.error "TypeError"

/-- The property `Glowv1Thermostat.target_temperature_high` (`climate.py`
lines 294-303): bytes read with `.get(key, 0)`, so a missing byte is 0 and
the result is always a number. -/
def target_temperature_high (attrs : String → Option Int) : ℚ :=
  (((attrs CFT_TEMP_L).getD 0 + (attrs CFT_TEMP_H).getD 0 * 255 : Int) : ℚ) / 10

/-- The property `Glowv1Thermostat.target_temperature_low` (`climate.py`
lines 305-314): bytes read with `.get(key, 0)`, so a missing byte is 0 and
the result is always a number. -/
def target_temperature_low (attrs : String → Option Int) : ℚ :=
  (((attrs ECO_TEMP_L).getD 0 + (attrs ECO_TEMP_H).getD 0 * 255 : Int) : ℚ) / 10

/-- Attribute mapping of a Glow device whose timer attribute is 1 and whose
on/off attribute is 1. -/
def glowAutoAttrs : String → Option WireVal :=
  fun k =>
    if k = CONF_TIMER then some (WireVal.int 1)
    else if k = CONF_ON_OFF then some (WireVal.int 1)
    else none

/-- Claim C1: Command Throttler spacing. Let `l` be the recorded
last-command time for `dev` (written at the completion of the first
command, hence no earlier than that command's dispatch time `fd`), and let
a second command for `dev` enter the throttle at time `now`. If less than
`min_diff` (1.5 s) has elapsed since `l`, the calling task sleeps exactly
the remaining delta and the second dispatch happens at `l + min_diff`,
hence no earlier than `fd + min_diff`; if at least `min_diff` has already
elapsed, no sleep is introduced and the dispatch happens immediately at
`now`. -/
theorem throttler_spacing (A : Type) (api : Except String A) (m : TimeMap)
    (dev : String) (l now tc fd : ℚ)
    (hlast : lookupTime m dev = some l) (hfd : fd ≤ l) (hnow : l ≤ now) :
    (now - l < min_diff →
      sleepSeconds (lookupTime m dev) now = min_diff - (now - l) ∧
      (async_control_device A m dev now api tc).dispatchTime = l + min_diff ∧
      fd + min_diff ≤ (async_control_device A m dev now api tc).dispatchTime) ∧
    (min_diff ≤ now - l →
      sleepSeconds (lookupTime m dev) now = 0 ∧
      (async_control_device A m dev now api tc).dispatchTime = now) := by
  have hdisp : (async_control_device A m dev now api tc).dispatchTime
      = now + sleepSeconds (lookupTime m dev) now := by
    cases api <;> simp [async_control_device, control_body]
  rw [hlast] at hdisp ⊢
  constructor
  · intro hlt
    have hs : sleepSeconds (some l) now = min_diff - (now - l) := by
      simp [sleepSeconds, if_pos hlt]
    refine ⟨hs, ?_, ?_⟩
    · rw [hdisp, hs]; ring
    · rw [hdisp, hs]; linarith
  · intro hge
    have hs : sleepSeconds (some l) now = 0 := by
      simp [sleepSeconds, if_neg (not_lt.mpr hge)]
    exact ⟨hs, by rw [hdisp, hs]; ring⟩

/-- Concrete instantiation of `throttler_spacing`: the previous command was
recorded at time 0, a second command at time 1 (less than 1.5 s later)
sleeps the remaining 0.5 s and dispatches at 1.5 s. -/
theorem throttler_spacing_witness :
    sleepSeconds (lookupTime [("d", (0 : ℚ))] "d") 1 = min_diff - (1 - 0) ∧
    (async_control_device Nat [("d", (0 : ℚ))] "d" 1 (Except.ok 0) 2).dispatchTime
      = 0 + min_diff := by
  have h := throttler_spacing Nat (Except.ok 0) [("d", (0 : ℚ))] "d" 0 1 2 0
    (by simp [lookupTime]) (le_refl 0) (by norm_num)
  have h2 := h.1 (by norm_num [min_diff])
  exact ⟨h2.1, h2.2.1⟩

/-- Claim C6 counterexample: after a failing API send at completion time
10, `_last_updated_time` is unchanged — the raised exception skips the
update line — so the entry for the device still holds 0, not 10, refuting
the unconditional update. -/
theorem last_command_time_counterexample :
    (async_control_device Nat [("d", (0 : ℚ))] "d" 5 (Except.error "boom") 10).newTimes
      = [("d", (0 : ℚ))] ∧
    lookupTime
      (async_control_device Nat [("d", (0 : ℚ))] "d" 5 (Except.error "boom") 10).newTimes
      "d" ≠ some 10 := by
  constructor
  · rfl
  · intro hc
    simp [async_control_device, control_body, lookupTime] at hc

/-- Claim C6 amended: the `_last_updated_time` entry for the device is set
to the completion time `tc` only when the API send returns successfully;
because the clock is monotone (`l ≤ tc`), the recorded timestamp never
regresses. When the send raises, the handler is reached before the update
line, so the map is left unchanged. -/
theorem last_command_time_amended (A : Type) (a : A) (e : String) (m : TimeMap)
    (dev : String) (now tc l : ℚ)
    (hl : lookupTime m dev = some l) (hm : l ≤ tc) :
    (lookupTime (async_control_device A m dev now (Except.ok a) tc).newTimes dev
        = some tc ∧
      ∀ t, lookupTime (async_control_device A m dev now (Except.ok a) tc).newTimes dev
          = some t → l ≤ t) ∧
    (async_control_device A m dev now (Except.error e) tc).newTimes = m := by
  have hok : (async_control_device A m dev now (Except.ok a) tc).newTimes
      = setTime m dev tc := rfl
  refine ⟨⟨?_, ?_⟩, rfl⟩
  · rw [hok]; simp [setTime, lookupTime]
  · intro t ht
    rw [hok] at ht
    simp [setTime, lookupTime] at ht
    rw [← ht]
    exact hm

/-- Concrete instantiation of `last_command_time_amended`: a successful
send at completion time 2 records 2 for the device; a failing send leaves
the map untouched. -/
theorem last_command_time_amended_witness :
    lookupTime (async_control_device Nat [("d", (0 : ℚ))] "d" 1 (Except.ok 0) 2).newTimes "d"
      = some 2 ∧
    (async_control_device Nat [("d", (0 : ℚ))] "d" 1 (Except.error "x") 2).newTimes
      = [("d", (0 : ℚ))] := by
  have h := last_command_time_amended Nat 0 "x" [("d", (0 : ℚ))] "d" 1 2 0
    (by simp [lookupTime]) (by norm_num)
  exact ⟨h.1.1, h.2⟩

/-- Claim C7: a failing API send raises out of the body of
`async_control_device`, but the function wraps the body in a catch-all
`except Exception` handler, so for every failure the call returns normally
to the façade caller, with `None` as its value and the timestamp map
untouched. -/
theorem control_device_swallows_errors (A : Type) (m : TimeMap) (dev : String)
    (now tc : ℚ) (e : String) :
    control_body A m dev now (Except.error e) tc = Except.error e ∧
    async_control_device A m dev now (Except.error e) tc =
      ⟨m, now + sleepSeconds (lookupTime m dev) now, none⟩ :=
  ⟨rfl, rfl⟩

/-- Helper: the dict index computed on `__init__.py` line 110 is always
0 or 2, because `(x % 2) * 2` can take no other value. -/
theorem presetIndex_mem (v : Int) (h mi : Nat) :
    presetIndex v h mi = 0 ∨ presetIndex v h mi = 2 := by
  have hform : presetIndex v h mi
      = pyShiftLeft v (_BITS_PER_STATE * block_nb h mi) % 2 * 2 := by
    norm_num [presetIndex, _BITS_PER_STATE]
  rw [hform]
  generalize pyShiftLeft v (_BITS_PER_STATE * block_nb h mi) = x
  omega

/-- Claim C2 (code bug): line 110 computes
`((state_value << 2*block_nb) % 2) * 2`, which is 0 or 2, so the decoder
only ever produces Comfort or Away (or the early `None`); Eco and Off are
unreachable, contradicting the claimed 2-bit extraction through the
four-entry `_BITS_TO_PRESET` table. Concretely, schedule value 1 queried
at 10:45 yields Away. -/
theorem schedule_decoder_bug :
    get_programmed_preset_at_date (fun _ => some 1) 1 10 45
      = Except.ok (some Preset.away) ∧
    (∀ (attrs : String → Option Int) (w h mi : Nat),
      get_programmed_preset_at_date attrs w h mi = Except.ok none ∨
      get_programmed_preset_at_date attrs w h mi = Except.ok (some Preset.comfort) ∨
      get_programmed_preset_at_date attrs w h mi = Except.ok (some Preset.away)) := by
  constructor
  · rfl
  · intro attrs w h mi
    rcases hA : attrs (scheduleKey w h) with _ | v
    · left
      simp only [get_programmed_preset_at_date, hA]
    · rcases presetIndex_mem v h mi with h0 | h2
      · right; left
        simp only [get_programmed_preset_at_date, hA, h0]
        rfl
      · right; right
        simp only [get_programmed_preset_at_date, hA, h2]
        rfl

/-- Claim C3 counterexample: at hour 5 the key is `p1_data2.5` (the Python
`/` is float true division), not the two-hour block key `p1_data2`; and
hours 4 and 5 do not share a key, refuting one value per two-hour block. -/
theorem schedule_key_counterexample :
    scheduleKey 1 5 ≠ "p1_data2" ∧ scheduleKey 1 4 ≠ scheduleKey 1 5 := by
  constructor <;> decide

/-- Claim C3 amended: the lookup key is `p{weekday}_data{hour/2}` with `/`
the Python float division, rendered `k.0` for even hours and `k.5` for odd
hours — one key per hour, not one per two-hour block. When the device's
attribute mapping has no value under that key the function returns `None`,
and a device with no schedule attributes always yields `None`. -/
theorem schedule_key_amended (attrs : String → Option Int) (w h mi : Nat)
    (habs : attrs (scheduleKey w h) = none) :
    get_programmed_preset_at_date attrs w h mi = Except.ok none ∧
    get_programmed_preset_at_date (fun _ => (none : Option Int)) w h mi
      = Except.ok none ∧
    scheduleKey w h =
      "p" ++ toString w ++ "_data" ++
        (toString (h / 2) ++ (if h % 2 = 0 then ".0" else ".5")) := by
  refine ⟨?_, rfl, rfl⟩
  simp only [get_programmed_preset_at_date, habs]

/-- Concrete instantiation of `schedule_key_amended`: a device with no
schedule attributes yields `None` at weekday 1, 05:00. -/
theorem schedule_key_amended_witness :
    get_programmed_preset_at_date (fun _ => (none : Option Int)) 1 5 0
      = Except.ok none :=
  (schedule_key_amended (fun _ => (none : Option Int)) 1 5 0 rfl).1

/-- Claim C4 counterexample: the V1 codec's decode table consumes the state
mode string while its encode table produces a raw command triple, so
decoding the encoded Comfort value does not yield Comfort back. -/
theorem v1_roundtrip_counterexample :
    V1_HEATZY_TO_HA_STATE (V1_HA_TO_HEATZY_STATE Preset.comfort)
      ≠ some Preset.comfort := by
  decide

/-- Claim C4 amended: `decode (encode P) = P` holds for every preset for
the V2 and Glow codecs; for the V1 codec the two tables operate on
disjoint wire domains (command triples versus state mode strings), so the
composition returns `none` for every preset instead of round-tripping. -/
theorem codec_roundtrip_amended (p : Preset) :
    V2_HEATZY_TO_HA_STATE (V2_HA_TO_HEATZY_STATE p) = some p ∧
    Glow_HEATZY_TO_HA_STATE (Glow_HA_TO_HEATZY_STATE p) = some p ∧
    V1_HEATZY_TO_HA_STATE (V1_HA_TO_HEATZY_STATE p) = none := by
  cases p <;> exact ⟨by decide, by decide, by decide⟩

/-- Claim C5 counterexample: a Glow device whose timer attribute is 1 does
not report Auto; the Glow `hvac_mode` override consults only the on/off
attribute and returns Heat here, even though the inherited `auto_mode` is
true. -/
theorem glow_auto_counterexample :
    v2_auto_mode glowAutoAttrs = true ∧
    glow_hvac_mode glowAutoAttrs = HVACMode.heat := by
  constructor <;> decide

/-- Claim C5 amended: for V2-family devices a timer attribute equal to 1
makes `hvac_mode` return Auto, overriding the preset-derived mode (Off
when the preset is `stop`, Heat otherwise); the Glow façade overrides
`hvac_mode` to depend only on the on/off attribute and never reports
Auto, even when the timer attribute is 1. -/
theorem hvac_auto_amended (attrs : String → Option WireVal) :
    (v2_auto_mode attrs = true → v2_hvac_mode attrs = HVACMode.auto) ∧
    (v2_auto_mode attrs = false →
      v2_preset_mode attrs = some Preset.preset_none →
      v2_hvac_mode attrs = HVACMode.off) ∧
    (v2_auto_mode attrs = false →
      v2_preset_mode attrs ≠ some Preset.preset_none →
      v2_hvac_mode attrs = HVACMode.heat) ∧
    glow_hvac_mode attrs ≠ HVACMode.auto := by
  refine ⟨?_, ?_, ?_, ?_⟩
  · intro ha; simp [v2_hvac_mode, ha]
  · intro ha hp; simp [v2_hvac_mode, ha, hp]
  · intro ha hp; simp [v2_hvac_mode, ha, hp]
  · unfold glow_hvac_mode
    split <;> simp

/-- Concrete instantiation of `hvac_auto_amended`: with the timer attribute
set to 1, the V2 façade reports Auto. -/
theorem hvac_auto_amended_witness :
    v2_hvac_mode glowAutoAttrs = HVACMode.auto :=
  (hvac_auto_amended glowAutoAttrs).1 (by decide)

/-- Claim C8: `_async_update_data` maps an authentication failure, and only
an authentication failure, to the distinguished `ConfigEntryAuthFailed`
signal; any `HeatzyException` or timeout becomes the generic
`UpdateFailed` signal; and a successful fetch is returned unchanged. -/
theorem update_data_error_mapping (D : Type) :
    (∀ d : D, _async_update_data D (Except.ok d) = Except.ok d) ∧
    (∀ fetch : Except FetchError D,
      _async_update_data D fetch
          = Except.error CoordinatorError.configEntryAuthFailed ↔
        fetch = Except.error FetchError.authenticationFailed) ∧
    (∀ msg, _async_update_data D (Except.error (FetchError.heatzyException msg))
      = Except.error (CoordinatorError.updateFailed (FetchError.heatzyException msg))) ∧
    _async_update_data D (Except.error FetchError.timeoutError)
      = Except.error (CoordinatorError.updateFailed FetchError.timeoutError) := by
  refine ⟨fun d => rfl, ?_, fun msg => rfl, rfl⟩
  intro fetch
  constructor
  · intro hf
    cases fetch with
    | ok d => simp [_async_update_data] at hf
    | error fe =>
      cases fe with
      | authenticationFailed => rfl
      | heatzyException msg => simp [_async_update_data] at hf
      | timeoutError => simp [_async_update_data] at hf
  · intro hf
    subst hf
    rfl

/-- Claim C9 (code bug): the subtraction on `climate.py` line 201 is
`last_update - datetime.now()`, which is nonpositive whenever the clock is
monotone, so the flag is true whenever any command was ever recorded for
the device — here 100 seconds after the command, far outside the claimed
5-second window — and false only when no command was recorded. -/
theorem recent_update_bug :
    recent_update_by_homeassistant (some 0) 100 = true ∧
    ¬ ((100 : ℚ) - 0 < 5) ∧
    (∀ l now : ℚ, l ≤ now →
      recent_update_by_homeassistant (some l) now = true) ∧
    (∀ now : ℚ, recent_update_by_homeassistant none now = false) := by
  refine ⟨?_, by norm_num, ?_, fun now => rfl⟩
  · simp only [recent_update_by_homeassistant, decide_eq_true_eq]
    norm_num
  · intro l now hle
    simp only [recent_update_by_homeassistant, decide_eq_true_eq]
    linarith

/-- Concrete instantiation of `recent_update_bug`: a command recorded at
time 2 still flags as recent at time 50. -/
theorem recent_update_bug_witness :
    recent_update_by_homeassistant (some 2) 50 = true :=
  recent_update_bug.2.2.1 2 50 (by norm_num)

/-- Claim C10: reading `current_temperature` on a Glow device whose
attribute mapping lacks the current-temperature high or low byte raises
(`TypeError` from arithmetic on Python `None`) instead of returning an
absent value, whereas `target_temperature_high` and
`target_temperature_low` default a missing byte to 0 and always return a
number. -/
theorem glow_temperature_properties (attrs : String → Option Int) :
    ((attrs CUR_TEMP_H = none ∨ attrs CUR_TEMP_L = none) →
      current_temperature attrs = Except.error "TypeError") ∧
    (attrs CFT_TEMP_H = none →
      target_temperature_high attrs = (((attrs CFT_TEMP_L).getD 0 : Int) : ℚ) / 10) ∧
    (attrs ECO_TEMP_H = none →
      target_temperature_low attrs = (((attrs ECO_TEMP_L).getD 0 : Int) : ℚ) / 10) := by
  refine ⟨?_, ?_, ?_⟩
  · rintro (h | h) <;> unfold current_temperature
    · rw [h]
      cases attrs CUR_TEMP_L <;> rfl
    · rw [h]
  · intro h
    unfold target_temperature_high
    rw [h]
    norm_num
  · intro h
    unfold target_temperature_low
    rw [h]
    norm_num

/-- Concrete instantiation of `glow_temperature_properties`: with an empty
attribute mapping, `current_temperature` raises while
`target_temperature_high` returns the number 0. -/
theorem glow_temperature_properties_witness :
    current_temperature (fun _ => (none : Option Int)) = Except.error "TypeError" ∧
    target_temperature_high (fun _ => (none : Option Int)) = 0 := by
  have h := glow_temperature_properties (fun _ => (none : Option Int))
  refine ⟨h.1 (Or.inl rfl), ?_⟩
  have h2 := h.2.1 rfl
  rw [h2]
  norm_num
